/-
Verification of the roover audio-playback controller.

The repository provides two variants of the `useAudio` hook
(src/unnamed/part_000 and src/unnamed/part_001) and two variants of the
`useRoover` hook (both in src/src/hooks/useRoover/useRoover.ts; the first
occupies lines 51-351, the second lines 401-658).  Both `useRoover`
variants consume the part_000 `useAudio` (they destructure
`{ service, onLoadAudio, onDestroyAudio }`, the shape returned only by
part_000).  The xstate machine they interpret (src/machine/Machine.ts) is
not among the sources, so its dispatch function is modelled from the
specification's transition table (section 4.1).

JavaScript numbers are embedded as rationals, with an explicit `nan`
constructor where NaN is reachable (`parseFloat` of a non-numeric string,
the playback rate).  A medium element (HTMLAudioElement) is a record of the
fields the hooks read and write; the eight `addEventListener` calls of
`onCreateAudio` are recorded by the flag `listenersAttached`, and no source
function ever calls `removeEventListener`, so nothing in the model clears
that flag.  Each command of the hooks is a pure function from controller
state to controller state paired with the trace of the externally visible
actions it performs (machine dispatches, element creation, element `load`,
`play` and `pause` calls), in source order.
-/
import Mathlib

namespace Roover

/-- A JavaScript number that may be NaN.  `parseFloat` on a non-numeric
string yields `nan`; every other number the sources manipulate is a
rational. -/
inductive JSNum
  | nan
  | num (q : ℚ)
deriving DecidableEq, Repr

/-- The guard `value > 0` of the RATE transition; false for NaN. -/
def JSNum.isPos : JSNum → Bool
  | .nan => false
  | .num q => decide (0 < q)

/-- Payload of the LOAD event as sent by part_000's `onLoadAudio` and
`loadstart` listener: `{ volume, rate, mute, loop }`. -/
structure LoadPayload where
  volume : ℚ
  rate : ℚ
  mute : Bool
  loop : Bool
deriving DecidableEq, Repr

/-- The machine events of the sources (constants.EVENTS / STATUS).  The
part_001 variant sends `LOAD` with no payload, hence the `Option`. -/
inductive Event
  | LOAD (p : Option LoadPayload)
  | READY (duration : ℚ)
  | ERROR (msg : String)
  | PLAY
  | PAUSE
  | END
  | MUTE
  | LOOP
  | RETRY
  | VOLUME (v : ℚ)
  | RATE (r : JSNum)
deriving DecidableEq, Repr

/-- Sub-states of the composite `ready` state. -/
inductive ReadySub
  | idle
  | playing
  | paused
deriving DecidableEq, Repr

/-- Machine states: `initial`, `loading`, `ready.{idle,playing,paused}`,
`end`, `error` (named `ended` / `errored` here). -/
inductive MState
  | initial
  | loading
  | ready (s : ReadySub)
  | ended
  | errored
deriving DecidableEq, Repr

/-- The machine context: volume, rate, duration, mute, loop, error. -/
structure Context where
  volume : ℚ := 1
  rate : JSNum := .num 1
  duration : ℚ := 0
  mute : Bool := false
  loop : Bool := false
  error : Option String := none
deriving DecidableEq, Repr

/-- Set volume/rate/mute/loop from a LOAD payload when one is present. -/
def applyLoad (cx : Context) : Option LoadPayload → Context
  | none => cx
  | some p =>
      { cx with volume := p.volume, rate := .num p.rate,
                mute := p.mute, loop := p.loop }

/-- Modelled from the spec: the PlaybackMachine transition table of
section 4.1.  The machine implementation (src/machine/Machine.ts, imported
by both hook variants) is not among the provided sources.  Unrecognized
events in a given state are no-ops. -/
def dispatch (st : MState) (cx : Context) (e : Event) : MState × Context :=
  match st, e with
  | .initial, .LOAD p => (.loading, applyLoad cx p)
  | .loading, .READY d => (.ready .idle, { cx with duration := d })
  | .loading, .ERROR m => (.errored, { cx with error := some m })
  | .errored, .RETRY => (.loading, { cx with error := none })
  | .ready .idle, .PLAY => (.ready .playing, cx)
  | .ready .paused, .PLAY => (.ready .playing, cx)
  | .ready .playing, .PAUSE => (.ready .paused, cx)
  | .ready .playing, .END => (.ended, cx)
  | .ready _, .ERROR m => (.errored, { cx with error := some m })
  | .ready _, .LOAD p =>
      (.loading, applyLoad { cx with duration := 0, error := none } p)
  | .loading, .LOAD p =>
      (.loading, applyLoad { cx with duration := 0, error := none } p)
  | .errored, .LOAD p =>
      (.loading, applyLoad { cx with duration := 0, error := none } p)
  | .ended, .LOAD p =>
      (.loading, applyLoad { cx with duration := 0, error := none } p)
  | .ready s, .VOLUME v =>
      if 0 ≤ v ∧ v ≤ 1 then (.ready s, { cx with volume := v })
      else (.ready s, cx)
  | .ready s, .RATE r =>
      if r.isPos then (.ready s, { cx with rate := r }) else (.ready s, cx)
  | .ready s, .MUTE => (.ready s, { cx with mute := !cx.mute })
  | .ready s, .LOOP => (.ready s, { cx with loop := !cx.loop })
  | s, _ => (s, cx)

/-- Source `state.matches('ready')`: true in every `ready` sub-state. -/
def matchesReady : MState → Bool
  | .ready _ => true
  | _ => false

/-- Source `state.matches('ready.playing')`. -/
def matchesPlaying : MState → Bool
  | .ready .playing => true
  | _ => false

/-- Source `state.matches('ready.paused')`. -/
def matchesPaused : MState → Bool
  | .ready .paused => true
  | _ => false

/-- Accumulate a run of decimal digits: value so far, number of digits
consumed, remaining characters. -/
def takeDigits (acc : ℕ) (n : ℕ) : List Char → ℕ × ℕ × List Char
  | [] => (acc, n, [])
  | c :: cs =>
      if c.isDigit then takeDigits (acc * 10 + (c.toNat - 48)) (n + 1) cs
      else (acc, n, c :: cs)

/-- JavaScript whitespace accepted before a number. -/
def isSpaceChar (c : Char) : Bool :=
  c = ' ' || c = '\t' || c = '\n' || c = '\r'

/-- Model of the JavaScript builtin `parseFloat`, used by `onRate`: skip
leading whitespace, an optional sign, digits, an optional fraction and an
optional decimal exponent; `nan` when no digit is found. -/
def parseFloat (s : String) : JSNum :=
  let cs := s.data.dropWhile isSpaceChar
  let (neg, cs) :=
    match cs with
    | '-' :: r => (true, r)
    | '+' :: r => (false, r)
    | _ => (false, cs)
  let (ip, ni, cs) := takeDigits 0 0 cs
  let (fp, nf, cs) :=
    match cs with
    | '.' :: r => takeDigits 0 0 r
    | _ => (0, 0, cs)
  if ni = 0 ∧ nf = 0 then .nan
  else
    let mag : ℚ := (ip : ℚ) + (fp : ℚ) / (10 : ℚ) ^ nf
    let mag :=
      match cs with
      | 'e' :: r | 'E' :: r =>
          let (eneg, r) :=
            match r with
            | '-' :: r2 => (true, r2)
            | '+' :: r2 => (false, r2)
            | _ => (false, r)
          let (ev, ne, _) := takeDigits 0 0 r
          if ne = 0 then mag
          else if eneg then mag / (10 : ℚ) ^ ev else mag * (10 : ℚ) ^ ev
      | _ => mag
    .num (if neg then -mag else mag)

/-- The argument record of `onCreateAudio` / `onLoadAudio` and of the
`useRoover` hook, with the destructuring defaults of the sources. -/
structure CreateAudioArgs where
  src : String := ""
  preload : String := "auto"
  autoplay : Bool := false
  volume : ℚ := 1
  rate : ℚ := 1
  mute : Bool := false
  loop : Bool := false
deriving DecidableEq, Repr

/-- The fields of an HTMLAudioElement the sources read or write.  `src` is
the value of the `src` attribute ("" when the attribute is absent);
`currentSrc` is the resolved source of the media the element holds.
`listenersAttached` records the eight `addEventListener` calls of
`onCreateAudio`; no source function calls `removeEventListener`, so no
operation in this development clears it. -/
structure Medium where
  src : String
  currentSrc : String
  currentTime : ℚ
  volume : ℚ
  playbackRate : JSNum
  muted : Bool
  loop : Bool
  autoplay : Bool
  preload : String
  ended : Bool
  paused : Bool
  listenersAttached : Bool
deriving DecidableEq, Repr

/-- Externally visible actions of a command, in program order: machine
dispatches (`service.send`), element creation (`new Audio(src)` inside
`onCreateAudio`), `audio.load()`, `audio.play()`, `audio.pause()`. -/
inductive Action
  | send (e : Event)
  | createElement (src : String)
  | mediumLoad
  | mediumPlay
  | mediumPause
deriving DecidableEq, Repr

/-- Source `audio.play()` as the command functions see it synchronously. -/
def playElem (a : Medium) : Medium := { a with paused := false }

/-- Source `audio.pause()` as the command functions see it synchronously. -/
def pauseElem (a : Medium) : Medium := { a with paused := true }

/-- Model of `HTMLMediaElement.load()`: restarts media selection from the
`src` attribute, resetting position and playback flags. -/
def loadElem (a : Medium) : Medium :=
  { a with currentSrc := a.src, currentTime := 0, ended := false,
           paused := true }

namespace P0

/-- part_000 `onCreateAudio`: builds the element from the arguments and
attaches the eight status listeners.  The `loadstart` listener will later
send LOAD with the closed-over volume/rate/mute/loop, but nothing is
dispatched synchronously during creation. -/
def onCreateAudio (args : CreateAudioArgs) : Medium :=
  { src := args.src
    currentSrc := args.src
    currentTime := 0
    volume := args.volume
    playbackRate := .num args.rate
    muted := args.mute
    loop := args.loop
    autoplay := args.autoplay
    preload := args.preload
    ended := false
    paused := true
    listenersAttached := true }

/-- part_000 `onLoadAudio`: given an owned element whose `currentSrc`
equals the requested src, return it unchanged; given an owned element with
a different src, send LOAD with the argument payload, rewrite the `src`
attribute with the element's own current `src` value and call `load()`;
given no element, create one (no synchronous dispatch on that path). -/
def onLoadAudio (audio : Option Medium) (args : CreateAudioArgs) :
    Medium × List Action :=
  match audio with
  | some a =>
      if a.currentSrc = args.src then (a, [])
      else
        (loadElem { a with src := a.src },
         [Action.send (Event.LOAD
            (some ⟨args.volume, args.rate, args.mute, args.loop⟩)),
          Action.mediumLoad])
  | none => (onCreateAudio args, [Action.createElement args.src])

/-- part_000 `onDestroyAudio`: returns the handle value (always
`undefined`) together with the state of the element after the in-place
mutations (`currentTime = 0`, `removeAttribute('src')`).  The element
itself survives with all of its listeners: the function never calls
`removeEventListener`. -/
def onDestroyAudio (audio : Option Medium) :
    Option Medium × Option Medium :=
  match audio with
  | none => (none, none)
  | some a => (none, some { a with currentTime := 0, src := "" })

end P0

namespace P1

/-- part_001 `onCreateAudio`: like part_000's, but every option goes
through a JavaScript truthiness fallback (`volume ? volume : 1.0`), so a
zero volume or rate and an empty preload fall back to their defaults. -/
def onCreateAudio (args : CreateAudioArgs) : Medium :=
  { src := args.src
    currentSrc := args.src
    currentTime := 0
    volume := if args.volume = 0 then 1 else args.volume
    playbackRate := .num (if args.rate = 0 then 1 else args.rate)
    muted := args.mute
    loop := args.loop
    autoplay := args.autoplay
    preload := if args.preload = "" then "auto" else args.preload
    ended := false
    paused := true
    listenersAttached := true }

/-- part_001 `onLoadAudio`: identical structure to part_000's, except that
on the unchanged-src branch it returns `undefined` instead of the existing
element, and its LOAD event carries no payload. -/
def onLoadAudio (audio : Option Medium) (args : CreateAudioArgs) :
    Option Medium × List Action :=
  match audio with
  | some a =>
      if a.currentSrc = args.src then (none, [])
      else
        (some (loadElem { a with src := a.src }),
         [Action.send (Event.LOAD none), Action.mediumLoad])
  | none => (some (onCreateAudio args), [Action.createElement args.src])

end P1

namespace V1

/-- Controller state of the first `useRoover` variant (lines 51-351):
the owned element, the interpreted machine's state and context, and the
hook's `seek` mirror state. -/
structure State where
  audio : Option Medium
  mstate : MState
  ctx : Context
  seek : ℚ
deriving DecidableEq, Repr

/-- Source `service.send(e)`: feed one event to the interpreted machine. -/
def send (s : State) (e : Event) : State :=
  let r := dispatch s.mstate s.ctx e
  { s with mstate := r.1, ctx := r.2 }

/-- Source `onToggle` (first variant, lines 132-155): with no element, load one;
otherwise, if the `ready` or `paused` selector holds, `audio.play()` then
send PLAY, and — from the same render snapshot — if `playing` holds,
`audio.pause()` then send PAUSE. -/
def onToggle (p : CreateAudioArgs) (s : State) : State × List Action :=
  match s.audio with
  | none =>
      let r := P0.onLoadAudio none p
      ({ s with audio := some r.1 }, r.2)
  | some a =>
      let rdy := matchesReady s.mstate
      let pau := matchesPaused s.mstate
      let ply := matchesPlaying s.mstate
      let r1 :
          State × List Action :=
        if rdy || pau then
          (send { s with audio := some (playElem a) } Event.PLAY,
           [Action.mediumPlay, Action.send Event.PLAY])
        else (s, [])
      let r2 :
          State × List Action :=
        if ply then
          match r1.1.audio with
          | some b =>
              (send { r1.1 with audio := some (pauseElem b) } Event.PAUSE,
               [Action.mediumPause, Action.send Event.PAUSE])
          | none => (r1.1, [])
        else (r1.1, [])
      (r2.1, r1.2 ++ r2.2)

/-- Source `onPlay` (first variant, lines 161-180): with no element, load one;
otherwise `audio.play()` and send PLAY when the `ready` or `paused`
selector holds. -/
def onPlay (p : CreateAudioArgs) (s : State) : State × List Action :=
  match s.audio with
  | none =>
      let r := P0.onLoadAudio none p
      ({ s with audio := some r.1 }, r.2)
  | some a =>
      if matchesReady s.mstate || matchesPaused s.mstate then
        (send { s with audio := some (playElem a) } Event.PLAY,
         [Action.mediumPlay, Action.send Event.PLAY])
      else (s, [])

/-- Source `onPause` (first variant, lines 186-190): no-op without an element;
otherwise send PAUSE then `audio.pause()`. -/
def onPause (s : State) : State × List Action :=
  match s.audio with
  | none => (s, [])
  | some a =>
      let s1 := send s Event.PAUSE
      ({ s1 with audio := some (pauseElem a) },
       [Action.send Event.PAUSE, Action.mediumPause])

/-- Source `onMute` (first variant, lines 196-200): no-op without an element;
otherwise send MUTE and set `audio.muted` to the negation of the context
mute value captured before the send. -/
def onMute (s : State) : State × List Action :=
  match s.audio with
  | none => (s, [])
  | some a =>
      let old := s.ctx.mute
      let s1 := send s Event.MUTE
      ({ s1 with audio := some { a with muted := !old } },
       [Action.send Event.MUTE])

/-- Source `onLoop` (first variant, lines 206-210): no-op without an element;
otherwise send LOOP and set `audio.loop` to the negation of the context
loop value captured before the send. -/
def onLoop (s : State) : State × List Action :=
  match s.audio with
  | none => (s, [])
  | some a =>
      let old := s.ctx.loop
      let s1 := send s Event.LOOP
      ({ s1 with audio := some { a with loop := !old } },
       [Action.send Event.LOOP])

/-- Source `onVolume` (first variant, lines 217-224): no-op without an element;
otherwise send VOLUME(value) and set `audio.volume = value`. -/
def onVolume (v : ℚ) (s : State) : State × List Action :=
  match s.audio with
  | none => (s, [])
  | some a =>
      let s1 := send s (Event.VOLUME v)
      ({ s1 with audio := some { a with volume := v } },
       [Action.send (Event.VOLUME v)])

/-- Source `onRate` (first variant, lines 231-239): no-op without an element;
otherwise parse the string with `parseFloat`, send RATE(rate) and set
`audio.playbackRate = rate`, with no guard on the parsed value. -/
def onRate (value : String) (s : State) : State × List Action :=
  match s.audio with
  | none => (s, [])
  | some a =>
      let rate := parseFloat value
      let s1 := send s (Event.RATE rate)
      ({ s1 with audio := some { a with playbackRate := rate } },
       [Action.send (Event.RATE rate)])

/-- Source `onSeek` (first variant, lines 246-253): no-op without an element;
otherwise set the hook's seek state and `audio.currentTime` to the value.
No machine event is sent. -/
def onSeek (v : ℚ) (s : State) : State × List Action :=
  match s.audio with
  | none => (s, [])
  | some a =>
      ({ s with seek := v, audio := some { a with currentTime := v } }, [])

/-- Source `onForward` (first variant, lines 260-268): no-op without an element
or when `audio.ended`; otherwise the new position is `seek + value`. -/
def onForward (v : ℚ) (s : State) : State × List Action :=
  match s.audio with
  | none => (s, [])
  | some a =>
      if a.ended then (s, [])
      else
        let ns := s.seek + v
        ({ s with seek := ns, audio := some { a with currentTime := ns } },
         [])

/-- Source `onBackward` (first variant, lines 275-283): no-op without an element
or when `audio.ended`; otherwise the new position is
`Math.max(seek - value, 0)`. -/
def onBackward (v : ℚ) (s : State) : State × List Action :=
  match s.audio with
  | none => (s, [])
  | some a =>
      if a.ended then (s, [])
      else
        let ns := max (s.seek - v) 0
        ({ s with seek := ns, audio := some { a with currentTime := ns } },
         [])

end V1

namespace V2

/-- Controller state of the second `useRoover` variant (lines 401-658):
the owned element and the interpreted machine's state and context (this
variant keeps no seek mirror; it exposes `getCurrentTime` instead). -/
structure State where
  audio : Option Medium
  mstate : MState
  ctx : Context
deriving DecidableEq, Repr

/-- Source `service.send(e)`: feed one event to the interpreted machine. -/
def send (s : State) (e : Event) : State :=
  let r := dispatch s.mstate s.ctx e
  { s with mstate := r.1, ctx := r.2 }

/-- Source `getCurrentTime` (second variant, lines 463-466): 0 without an
element, otherwise `audio.currentTime`.  Total, so it never fails. -/
def getCurrentTime (s : State) : ℚ :=
  match s.audio with
  | none => 0
  | some a => a.currentTime

/-- Source `onToggle` (second variant, lines 473-496): same logic as the first
variant's. -/
def onToggle (p : CreateAudioArgs) (s : State) : State × List Action :=
  match s.audio with
  | none =>
      let r := P0.onLoadAudio none p
      ({ s with audio := some r.1 }, r.2)
  | some a =>
      let rdy := matchesReady s.mstate
      let pau := matchesPaused s.mstate
      let ply := matchesPlaying s.mstate
      let r1 :
          State × List Action :=
        if rdy || pau then
          (send { s with audio := some (playElem a) } Event.PLAY,
           [Action.mediumPlay, Action.send Event.PLAY])
        else (s, [])
      let r2 :
          State × List Action :=
        if ply then
          match r1.1.audio with
          | some b =>
              (send { r1.1 with audio := some (pauseElem b) } Event.PAUSE,
               [Action.mediumPause, Action.send Event.PAUSE])
          | none => (r1.1, [])
        else (r1.1, [])
      (r2.1, r1.2 ++ r2.2)

/-- Source `onPlay` (second variant, lines 502-521): with no element, load one;
otherwise `audio.play()` and send PLAY when the `ready` or `paused`
selector holds. -/
def onPlay (p : CreateAudioArgs) (s : State) : State × List Action :=
  match s.audio with
  | none =>
      let r := P0.onLoadAudio none p
      ({ s with audio := some r.1 }, r.2)
  | some a =>
      if matchesReady s.mstate || matchesPaused s.mstate then
        (send { s with audio := some (playElem a) } Event.PLAY,
         [Action.mediumPlay, Action.send Event.PLAY])
      else (s, [])

/-- Source `onPause` (second variant, lines 527-531). -/
def onPause (s : State) : State × List Action :=
  match s.audio with
  | none => (s, [])
  | some a =>
      let s1 := send s Event.PAUSE
      ({ s1 with audio := some (pauseElem a) },
       [Action.send Event.PAUSE, Action.mediumPause])

/-- Source `onMute` (second variant, lines 537-541). -/
def onMute (s : State) : State × List Action :=
  match s.audio with
  | none => (s, [])
  | some a =>
      let old := s.ctx.mute
      let s1 := send s Event.MUTE
      ({ s1 with audio := some { a with muted := !old } },
       [Action.send Event.MUTE])

/-- Source `onLoop` (second variant, lines 547-551). -/
def onLoop (s : State) : State × List Action :=
  match s.audio with
  | none => (s, [])
  | some a =>
      let old := s.ctx.loop
      let s1 := send s Event.LOOP
      ({ s1 with audio := some { a with loop := !old } },
       [Action.send Event.LOOP])

/-- Source `onVolume` (second variant, lines 558-562). -/
def onVolume (v : ℚ) (s : State) : State × List Action :=
  match s.audio with
  | none => (s, [])
  | some a =>
      let s1 := send s (Event.VOLUME v)
      ({ s1 with audio := some { a with volume := v } },
       [Action.send (Event.VOLUME v)])

/-- Source `onRate` (second variant, lines 569-574): parse the string, send
RATE(rate), set `audio.playbackRate = rate`, with no guard on the parsed
value. -/
def onRate (value : String) (s : State) : State × List Action :=
  match s.audio with
  | none => (s, [])
  | some a =>
      let rate := parseFloat value
      let s1 := send s (Event.RATE rate)
      ({ s1 with audio := some { a with playbackRate := rate } },
       [Action.send (Event.RATE rate)])

/-- Source `onSeek` (second variant, lines 581-584): no-op without an element;
otherwise set only `audio.currentTime`.  No machine event is sent. -/
def onSeek (v : ℚ) (s : State) : State × List Action :=
  match s.audio with
  | none => (s, [])
  | some a => ({ s with audio := some { a with currentTime := v } }, [])

/-- Source `onForward` (second variant, lines 591-595): no-op without an element
or when `audio.ended`; otherwise the new position is
`audio.currentTime + value`. -/
def onForward (v : ℚ) (s : State) : State × List Action :=
  match s.audio with
  | none => (s, [])
  | some a =>
      if a.ended then (s, [])
      else
        ({ s with audio := some { a with currentTime := a.currentTime + v } },
         [])

/-- Source `onBackward` (second variant, lines 602-606): no-op without an element
or when `audio.ended`; otherwise the new position is
`Math.max(audio.currentTime - value, 0)`. -/
def onBackward (v : ℚ) (s : State) : State × List Action :=
  match s.audio with
  | none => (s, [])
  | some a =>
      if a.ended then (s, [])
      else
        let b := { a with currentTime := max (a.currentTime - v) 0 }
        ({ s with audio := some b }, [])

/-- Source `onAudioSrcChange` (second variant, lines 608-623): no-op without an
element; otherwise pause, seek to 0, destroy the element (which returns
`undefined` and leaves the element's listeners attached) and load with the
new source, which therefore always takes `onLoadAudio`'s creation path. -/
def onAudioSrcChange (p : CreateAudioArgs) (s : State) :
    State × List Action :=
  match s.audio with
  | none => (s, [])
  | some _ =>
      let r1 := onPause s
      let r2 := onSeek 0 r1.1
      let d := P0.onDestroyAudio r2.1.audio
      let r3 := P0.onLoadAudio d.1 { p with autoplay := false }
      ({ r2.1 with audio := some r3.1 }, r1.2 ++ r2.2 ++ r3.2)

end V2

/-- The claim of C1, as a decidable trace predicate: scanning the trace in
order, a LOAD dispatch is met before any element creation or element
`load()` call (vacuously true when the trace performs neither). -/
def loadDispatchedBeforeCreation : List Action → Bool
  | [] => true
  | Action.send (Event.LOAD _) :: _ => true
  | Action.createElement _ :: _ => false
  | Action.mediumLoad :: _ => false
  | _ :: rest => loadDispatchedBeforeCreation rest

/-- Sample load arguments used by the concrete witnesses. -/
def sampleArgs : CreateAudioArgs := { src := "track-one.mp3" }

/-- An element created by part_000's `onCreateAudio` for a source that
differs from `sampleArgs`. -/
def mediumA : Medium := P0.onCreateAudio { src := "a.mp3" }

/-- The element `mediumA` after its medium reported natural end. -/
def mediumEnded : Medium := { mediumA with ended := true }

/-- A first-variant controller state owning no element. -/
def emptyStateV1 : V1.State :=
  { audio := none, mstate := .initial, ctx := {}, seek := 0 }

/-- A second-variant controller state owning no element. -/
def emptyStateV2 : V2.State :=
  { audio := none, mstate := .initial, ctx := {} }

/-- A first-variant state owning `mediumA` while the machine is in
`ready.playing`, with the seek mirror at 0. -/
def playingStateV1 : V1.State :=
  { audio := some mediumA, mstate := .ready .playing, ctx := {}, seek := 0 }

/-- A second-variant state owning `mediumA` while the machine is in
`ready.paused`. -/
def pausedStateV2 : V2.State :=
  { audio := some mediumA, mstate := .ready .paused, ctx := {} }

/-- A first-variant state whose seek mirror reads 5 seconds. -/
def st5 : V1.State :=
  { audio := some mediumA, mstate := .ready .playing, ctx := {}, seek := 5 }

/-- The element `mediumA` at playback position 5 seconds. -/
def mediumAt5 : Medium := { mediumA with currentTime := 5 }

/-- A second-variant state whose element is at position 5 seconds. -/
def st5v2 : V2.State :=
  { audio := some mediumAt5, mstate := .ready .playing, ctx := {} }

/-- A first-variant state owning an element that has ended. -/
def endedStateV1 : V1.State :=
  { audio := some mediumEnded, mstate := .ended, ctx := {}, seek := 5 }

/-- A second-variant state owning an element that has ended. -/
def endedStateV2 : V2.State :=
  { audio := some mediumEnded, mstate := .ended, ctx := {} }

/-- C1 counterexample: a `load` call on the path where no Medium exists
yet (`onLoadAudio` with `undefined`) creates the element with no prior —
indeed no — synchronous LOAD dispatch: the trace is just the element
creation, so the LOAD event is not dispatched before the Medium is
created, contrary to the claim. -/
theorem C1_counterexample :
    loadDispatchedBeforeCreation (P0.onLoadAudio none sampleArgs).2
      = false ∧
    (P0.onLoadAudio none sampleArgs).2
      = [Action.createElement "track-one.mp3"] := by
  exact ⟨rfl, rfl⟩

/-- C1 (amended): when a Medium is owned and its source differs from the
requested one, `onLoadAudio` dispatches LOAD before calling the Medium's
`load()`; but on the path where no Medium exists yet the call performs no
dispatch at all — the element is created and LOAD reaches the machine only
through the asynchronous `loadstart` callback. -/
theorem C1_load_before_recreate (a : Medium) (args args2 : CreateAudioArgs)
    (h : a.currentSrc ≠ args.src) :
    (P0.onLoadAudio (some a) args).2 =
      [Action.send (Event.LOAD
         (some ⟨args.volume, args.rate, args.mute, args.loop⟩)),
       Action.mediumLoad] ∧
    loadDispatchedBeforeCreation (P0.onLoadAudio (some a) args).2 = true ∧
    (P0.onLoadAudio none args2).2 = [Action.createElement args2.src] := by
  refine ⟨?_, ?_, rfl⟩ <;>
    simp [P0.onLoadAudio, h, loadDispatchedBeforeCreation]

/-- C1 witness: the amended statement at `mediumA` (source "a.mp3") and
`sampleArgs` (source "track-one.mp3"). -/
theorem C1_load_before_recreate_witness :
    (P0.onLoadAudio (some mediumA) sampleArgs).2 =
      [Action.send (Event.LOAD (some ⟨1, 1, false, false⟩)),
       Action.mediumLoad] ∧
    loadDispatchedBeforeCreation
      (P0.onLoadAudio (some mediumA) sampleArgs).2 = true ∧
    (P0.onLoadAudio none sampleArgs).2 =
      [Action.createElement "track-one.mp3"] :=
  C1_load_before_recreate mediumA sampleArgs sampleArgs (by decide)

/-- C2 counterexample: from `ready.playing` (where `matchesReady` holds),
`onPlay` with an owned element does invoke the Medium's play primitive and
does dispatch PLAY, contrary to the claim that it acts only from
`Ready.Idle` or `Ready.Paused`. -/
theorem C2_counterexample :
    (V1.onPlay sampleArgs playingStateV1).2 =
      [Action.mediumPlay, Action.send Event.PLAY] := by
  decide

/-- C2 (amended): with an owned Medium, `onPlay` (both variants) invokes
play and dispatches PLAY exactly when the `ready` selector (true in every
`Ready` sub-state, `Ready.Playing` included) or the `paused` selector
holds, and does neither from `Initial`, `Loading`, `Ended` or `Errored`;
`onToggle` plays under the same guard and additionally pauses and
dispatches PAUSE when in `Ready.Playing`. -/
theorem C2_play_guard (p : CreateAudioArgs) (s : V1.State) (a : Medium)
    (h : s.audio = some a) (s2 : V2.State) (a2 : Medium)
    (h2 : s2.audio = some a2) :
    (V1.onPlay p s).2 =
      (if matchesReady s.mstate || matchesPaused s.mstate then
        [Action.mediumPlay, Action.send Event.PLAY] else []) ∧
    (V2.onPlay p s2).2 =
      (if matchesReady s2.mstate || matchesPaused s2.mstate then
        [Action.mediumPlay, Action.send Event.PLAY] else []) ∧
    (V1.onToggle p s).2 =
      ((if matchesReady s.mstate || matchesPaused s.mstate then
          [Action.mediumPlay, Action.send Event.PLAY] else []) ++
       (if matchesPlaying s.mstate then
          [Action.mediumPause, Action.send Event.PAUSE] else [])) ∧
    matchesReady (MState.ready .playing) = true := by
  refine ⟨?_, ?_, ?_, rfl⟩
  · by_cases hb : (matchesReady s.mstate || matchesPaused s.mstate) = true <;>
      simp [V1.onPlay, h, hb]
  · by_cases hb : (matchesReady s2.mstate || matchesPaused s2.mstate) = true <;>
      simp [V2.onPlay, h2, hb]
  · by_cases hb : (matchesReady s.mstate || matchesPaused s.mstate) = true <;>
      by_cases hp : matchesPlaying s.mstate = true <;>
      simp [V1.onToggle, V1.send, h, hb, hp]

/-- C2 witness: the amended statement at the `ready.playing` first-variant
state and the `ready.paused` second-variant state. -/
theorem C2_play_guard_witness :
    (V2.onPlay sampleArgs pausedStateV2).2 =
      [Action.mediumPlay, Action.send Event.PLAY] := by
  have h := C2_play_guard sampleArgs playingStateV1 mediumA rfl
    pausedStateV2 mediumA rfl
  rw [h.2.1]
  decide

/-- C3: the code violates the claim — `onDestroyAudio` resets the position
and removes the `src` attribute of the disposed element but never calls
`removeEventListener` (no source function does), so the disposed element
retains whatever listeners it had; a late callback from it can still
dispatch into the shared machine after `onAudioSrcChange` creates the new
element. -/
theorem C3_listeners_not_detached (a : Medium) :
    (P0.onDestroyAudio (some a)).2.map Medium.listenersAttached =
      some a.listenersAttached ∧
    (P0.onCreateAudio sampleArgs).listenersAttached = true ∧
    (P0.onDestroyAudio
        (some (P0.onCreateAudio sampleArgs))).2.map
      Medium.listenersAttached = some true := by
  exact ⟨rfl, rfl, rfl⟩

/-- C4 counterexample: with the part_001 variant, the first `load` call
creates and returns an element, but a second call with the same descriptor
returns `undefined` rather than the existing Medium handle. -/
theorem C4_counterexample :
    (P1.onLoadAudio (P1.onLoadAudio none sampleArgs).1 sampleArgs).1
      = none ∧
    (P1.onLoadAudio none sampleArgs).1 ≠ none := by
  exact ⟨rfl, by decide⟩

/-- C4 (amended): a second `load` with an unchanged source descriptor
produces no additional LOAD dispatch and no disposal or recreation in
either variant; the part_000 variant returns the existing handle
unchanged, while the part_001 variant returns `undefined` instead of the
existing handle. -/
theorem C4_idempotent (args : CreateAudioArgs) (a b : Medium)
    (h : a.currentSrc = args.src) (hb : b.currentSrc = args.src) :
    P0.onLoadAudio (some a) args = (a, []) ∧
    P1.onLoadAudio (some b) args = (none, []) ∧
    P0.onLoadAudio (some (P0.onLoadAudio none args).1) args =
      ((P0.onLoadAudio none args).1, []) ∧
    (P1.onLoadAudio (P1.onLoadAudio none args).1 args).2 = [] := by
  refine ⟨?_, ?_, ?_, ?_⟩ <;>
    simp [P0.onLoadAudio, P1.onLoadAudio, P0.onCreateAudio, P1.onCreateAudio,
      h, hb]

/-- C4 witness: the amended statement at an element whose `currentSrc`
already equals the requested source. -/
theorem C4_idempotent_witness :
    P0.onLoadAudio (some (P0.onCreateAudio sampleArgs)) sampleArgs =
      (P0.onCreateAudio sampleArgs, []) ∧
    P1.onLoadAudio (some (P1.onCreateAudio sampleArgs)) sampleArgs =
      (none, []) ∧
    P0.onLoadAudio (some (P0.onLoadAudio none sampleArgs).1) sampleArgs =
      ((P0.onLoadAudio none sampleArgs).1, []) ∧
    (P1.onLoadAudio (P1.onLoadAudio none sampleArgs).1 sampleArgs).2
      = [] :=
  C4_idempotent sampleArgs (P0.onCreateAudio sampleArgs)
    (P1.onCreateAudio sampleArgs) rfl rfl

/-- C5: with no Medium owned, every command of both variants returns the
controller state unchanged with an empty trace (no machine dispatch, no
Medium call, and — the functions being total — no exception), except
`onToggle` and `onPlay`, which perform the load and install the newly
created Medium. -/
theorem C5_absent_medium (p : CreateAudioArgs) (v w : ℚ) (str : String)
    (s : V1.State) (h : s.audio = none)
    (s2 : V2.State) (h2 : s2.audio = none) :
    V1.onPause s = (s, []) ∧ V1.onMute s = (s, []) ∧
    V1.onLoop s = (s, []) ∧ V1.onVolume v s = (s, []) ∧
    V1.onRate str s = (s, []) ∧ V1.onSeek v s = (s, []) ∧
    V1.onForward v s = (s, []) ∧ V1.onBackward w s = (s, []) ∧
    V2.onPause s2 = (s2, []) ∧ V2.onMute s2 = (s2, []) ∧
    V2.onLoop s2 = (s2, []) ∧ V2.onVolume v s2 = (s2, []) ∧
    V2.onRate str s2 = (s2, []) ∧ V2.onSeek v s2 = (s2, []) ∧
    V2.onForward v s2 = (s2, []) ∧ V2.onBackward w s2 = (s2, []) ∧
    V2.onAudioSrcChange p s2 = (s2, []) ∧
    V2.getCurrentTime s2 = 0 ∧
    (V1.onToggle p s).1.audio = some (P0.onLoadAudio none p).1 ∧
    (V1.onPlay p s).1.audio = some (P0.onLoadAudio none p).1 ∧
    (V2.onToggle p s2).1.audio = some (P0.onLoadAudio none p).1 ∧
    (V2.onPlay p s2).1.audio = some (P0.onLoadAudio none p).1 := by
  simp [V1.onPause, V1.onMute, V1.onLoop, V1.onVolume, V1.onRate,
    V1.onSeek, V1.onForward, V1.onBackward, V2.onPause, V2.onMute,
    V2.onLoop, V2.onVolume, V2.onRate, V2.onSeek, V2.onForward,
    V2.onBackward, V2.onAudioSrcChange, V2.getCurrentTime, V1.onToggle,
    V1.onPlay, V2.onToggle, V2.onPlay, h, h2]

/-- C5 witness: the statement at the empty controller states. -/
theorem C5_absent_medium_witness :
    V1.onPause emptyStateV1 = (emptyStateV1, []) ∧
    V1.onMute emptyStateV1 = (emptyStateV1, []) ∧
    V1.onLoop emptyStateV1 = (emptyStateV1, []) ∧
    V1.onVolume 2 emptyStateV1 = (emptyStateV1, []) ∧
    V1.onRate "x" emptyStateV1 = (emptyStateV1, []) ∧
    V1.onSeek 2 emptyStateV1 = (emptyStateV1, []) ∧
    V1.onForward 2 emptyStateV1 = (emptyStateV1, []) ∧
    V1.onBackward 3 emptyStateV1 = (emptyStateV1, []) ∧
    V2.onPause emptyStateV2 = (emptyStateV2, []) ∧
    V2.onMute emptyStateV2 = (emptyStateV2, []) ∧
    V2.onLoop emptyStateV2 = (emptyStateV2, []) ∧
    V2.onVolume 2 emptyStateV2 = (emptyStateV2, []) ∧
    V2.onRate "x" emptyStateV2 = (emptyStateV2, []) ∧
    V2.onSeek 2 emptyStateV2 = (emptyStateV2, []) ∧
    V2.onForward 2 emptyStateV2 = (emptyStateV2, []) ∧
    V2.onBackward 3 emptyStateV2 = (emptyStateV2, []) ∧
    V2.onAudioSrcChange sampleArgs emptyStateV2 = (emptyStateV2, []) ∧
    V2.getCurrentTime emptyStateV2 = 0 ∧
    (V1.onToggle sampleArgs emptyStateV1).1.audio =
      some (P0.onLoadAudio none sampleArgs).1 ∧
    (V1.onPlay sampleArgs emptyStateV1).1.audio =
      some (P0.onLoadAudio none sampleArgs).1 ∧
    (V2.onToggle sampleArgs emptyStateV2).1.audio =
      some (P0.onLoadAudio none sampleArgs).1 ∧
    (V2.onPlay sampleArgs emptyStateV2).1.audio =
      some (P0.onLoadAudio none sampleArgs).1 :=
  C5_absent_medium sampleArgs 2 3 "x" emptyStateV1 rfl emptyStateV2 rfl

/-- C6: with an owned, non-ended Medium, `onBackward` of the first variant
sets the seek mirror and the element position to `max(seek - value, 0)`,
and the second variant sets the element position to
`max(currentTime - value, 0)`; the resulting position is never negative. -/
theorem C6_backward_clamp (v : ℚ) (s : V1.State) (a : Medium)
    (h : s.audio = some a) (hne : a.ended = false)
    (s2 : V2.State) (a2 : Medium) (h2 : s2.audio = some a2)
    (hne2 : a2.ended = false) :
    (V1.onBackward v s).1.seek = max (s.seek - v) 0 ∧
    (V1.onBackward v s).1.audio =
      some { a with currentTime := max (s.seek - v) 0 } ∧
    0 ≤ (V1.onBackward v s).1.seek ∧
    (V2.onBackward v s2).1.audio =
      some { a2 with currentTime := max (a2.currentTime - v) 0 } ∧
    0 ≤ V2.getCurrentTime (V2.onBackward v s2).1 := by
  refine ⟨?_, ?_, ?_, ?_, ?_⟩ <;>
    simp [V1.onBackward, V2.onBackward, V2.getCurrentTime, h, hne, h2,
      hne2, le_max_iff]

/-- C6 witness: `skipBackward(10)` at position 5 clamps to 0 in both
variants. -/
theorem C6_backward_clamp_witness :
    (V1.onBackward 10 st5).1.seek = 0 ∧
    (V2.onBackward 10 st5v2).1.audio =
      some { mediumAt5 with currentTime := 0 } ∧
    0 ≤ V2.getCurrentTime (V2.onBackward 10 st5v2).1 := by
  have h := C6_backward_clamp 10 st5 mediumA rfl rfl st5v2 mediumAt5
    rfl rfl
  refine ⟨?_, ?_, h.2.2.2.2⟩
  · rw [h.1]
    have hs : st5.seek - 10 ≤ 0 := by norm_num [st5]
    rw [max_eq_right hs]
  · rw [h.2.2.2.1]
    have hm : mediumAt5.currentTime - 10 ≤ 0 := by norm_num [mediumAt5]
    rw [max_eq_right hm]

/-- C7: with an owned Medium whose `ended` flag is set, `onForward` and
`onBackward` of both variants return the controller state — element
position, machine state and context — unchanged, with an empty trace, for
every amount. -/
theorem C7_ended_noop (v w : ℚ) (s : V1.State) (a : Medium)
    (h : s.audio = some a) (he : a.ended = true)
    (s2 : V2.State) (a2 : Medium) (h2 : s2.audio = some a2)
    (he2 : a2.ended = true) :
    V1.onForward v s = (s, []) ∧ V1.onBackward w s = (s, []) ∧
    V2.onForward v s2 = (s2, []) ∧ V2.onBackward w s2 = (s2, []) := by
  simp [V1.onForward, V1.onBackward, V2.onForward, V2.onBackward, h, he,
    h2, he2]

/-- C7 witness: the statement at the ended element. -/
theorem C7_ended_noop_witness :
    V1.onForward 4 endedStateV1 = (endedStateV1, []) ∧
    V1.onBackward 7 endedStateV1 = (endedStateV1, []) ∧
    V2.onForward 4 endedStateV2 = (endedStateV2, []) ∧
    V2.onBackward 7 endedStateV2 = (endedStateV2, []) :=
  C7_ended_noop 4 7 endedStateV1 mediumEnded rfl rfl endedStateV2
    mediumEnded rfl rfl

/-- C8: with an owned Medium, `onSeek` dispatches no machine event and
leaves the machine state and the whole context (volume, rate, duration,
mute, loop, error) unchanged; the second variant changes only the
element's `currentTime`, the first variant additionally updates its seek
mirror to the same value. -/
theorem C8_seek_frame (v : ℚ) (s2 : V2.State) (a2 : Medium)
    (h2 : s2.audio = some a2) (s : V1.State) (a : Medium)
    (h : s.audio = some a) :
    (V2.onSeek v s2).2 = [] ∧
    (V2.onSeek v s2).1.mstate = s2.mstate ∧
    (V2.onSeek v s2).1.ctx = s2.ctx ∧
    (V2.onSeek v s2).1.audio = some { a2 with currentTime := v } ∧
    (V1.onSeek v s).2 = [] ∧
    (V1.onSeek v s).1.mstate = s.mstate ∧
    (V1.onSeek v s).1.ctx = s.ctx ∧
    (V1.onSeek v s).1.audio = some { a with currentTime := v } ∧
    (V1.onSeek v s).1.seek = v := by
  refine ⟨?_, ?_, ?_, ?_, ?_, ?_, ?_, ?_, ?_⟩ <;>
    simp [V1.onSeek, V2.onSeek, h, h2]

/-- C8 witness: the statement at concrete owned states and value 9. -/
theorem C8_seek_frame_witness :
    (V2.onSeek 9 st5v2).2 = [] ∧
    (V2.onSeek 9 st5v2).1.mstate = st5v2.mstate ∧
    (V2.onSeek 9 st5v2).1.ctx = st5v2.ctx ∧
    (V2.onSeek 9 st5v2).1.audio =
      some { mediumAt5 with currentTime := 9 } ∧
    (V1.onSeek 9 st5).2 = [] ∧
    (V1.onSeek 9 st5).1.mstate = st5.mstate ∧
    (V1.onSeek 9 st5).1.ctx = st5.ctx ∧
    (V1.onSeek 9 st5).1.audio = some { mediumA with currentTime := 9 } ∧
    (V1.onSeek 9 st5).1.seek = 9 :=
  C8_seek_frame 9 st5v2 mediumAt5 rfl st5 mediumA rfl

/-- C9: `getCurrentTime` returns 0 when no Medium is owned and the
element's current playback position otherwise; being a total function, it
never fails. -/
theorem C9_getCurrentTime (s : V2.State) :
    (s.audio = none → V2.getCurrentTime s = 0) ∧
    ∀ a, s.audio = some a → V2.getCurrentTime s = a.currentTime := by
  constructor
  · intro h; simp [V2.getCurrentTime, h]
  · intro a h; simp [V2.getCurrentTime, h]

/-- C9 witness: 0 before any load; the element position once owned. -/
theorem C9_getCurrentTime_witness :
    V2.getCurrentTime emptyStateV2 = 0 ∧
    V2.getCurrentTime st5v2 = 5 :=
  ⟨(C9_getCurrentTime emptyStateV2).1 rfl,
   (C9_getCurrentTime st5v2).2 mediumAt5 rfl⟩

/-- C10: with an owned Medium, `onRate` of both variants parses its string
argument with `parseFloat`, dispatches RATE carrying exactly the parsed
value and sets the element's `playbackRate` to that same value, with no
guard rejecting a non-numeric string — for which `parseFloat` yields
NaN. -/
theorem C10_rate_parse (str : String) (s : V1.State) (a : Medium)
    (h : s.audio = some a) (s2 : V2.State) (a2 : Medium)
    (h2 : s2.audio = some a2) :
    (V1.onRate str s).2 = [Action.send (Event.RATE (parseFloat str))] ∧
    (V1.onRate str s).1.audio =
      some { a with playbackRate := parseFloat str } ∧
    (V2.onRate str s2).2 = [Action.send (Event.RATE (parseFloat str))] ∧
    (V2.onRate str s2).1.audio =
      some { a2 with playbackRate := parseFloat str } ∧
    parseFloat "abc" = JSNum.nan := by
  refine ⟨?_, ?_, ?_, ?_, rfl⟩ <;> simp [V1.onRate, V2.onRate, h, h2]

/-- C10 witness: the statement at the string "2.5", which parses to 5/2
and is dispatched as such. -/
theorem C10_rate_parse_witness :
    (V1.onRate "2.5" st5).2 =
      [Action.send (Event.RATE (parseFloat "2.5"))] ∧
    parseFloat "2.5" = JSNum.num (5 / 2) ∧
    parseFloat "abc" = JSNum.nan := by
  have h := C10_rate_parse "2.5" st5 mediumA rfl st5v2 mediumAt5 rfl
  have e : parseFloat "2.5" = JSNum.num (5 / 2) := by
    rw [show parseFloat "2.5" =
      JSNum.num (((2 : ℕ) : ℚ) + ((5 : ℕ) : ℚ) / (10 : ℚ) ^ (1 : ℕ))
        from rfl]
    norm_num
  exact ⟨h.1, e, h.2.2.2.2⟩

end Roover
